import Mathlib

/-!
Verification development for the Cargus API client (`script.js`).

The client is a class holding mutable session state (`token`, `awb`) and five
operations (`loginUser`, `getCounties`, `getLocalities`, `createAWB`,
`printAWB`), each performing one HTTP call through an axios instance created
with default settings.  We embed each operation as a pure function from the
session state and the outcome of the single remote call to a return value, a
new session state, and the observable effects (requests issued, console
diagnostics, file writes).

Modelling decisions taken from the source:
* JavaScript values carried in requests and responses are modelled by a small
  JSON-like inductive type `Json`; the JS `null` is `Json.null`, so the
  constructor's `this.token = null` / `this.awb = null` become fields of type
  `Json` initialised to `Json.null`.
* axios with default `validateStatus` resolves exactly for response statuses
  in `[200, 300)` and rejects (throws) otherwise; a rejected promise lands in
  the `catch` block of each method.  A transport failure (network error or
  timeout) also rejects, with no response attached.
* The class body defines `getLocalities` twice; in JavaScript the second
  definition shadows the first, so the embedding follows the second one
  (status 200 returns the data, any other delivered status falls through and
  returns `undefined` with no log, the catch block logs "Error").
* `undefined` (a method falling off the end, or a branch with no `return`) is
  modelled as `none` of an `Option Json` result; an explicit `return null`
  is `some Json.null`.
* Console output is recorded as the list of the first (literal) argument of
  each `console.log` / `console.error` call, in order.
-/

/-- JSON-like JavaScript values exchanged with the remote service. -/
inductive Json where
  | null : Json
  | bool : Bool → Json
  | num : Int → Json
  | str : String → Json
  | arr : List Json → Json
  | obj : List (String × Json) → Json
deriving Repr

/-- JavaScript truthiness of a `Json` value, as used by `if (!this.token)`. -/
def truthy : Json → Bool
  | Json.null => false
  | Json.bool b => b
  | Json.num n => n != 0
  | Json.str s => s != ""
  | Json.arr _ => true
  | Json.obj _ => true

/-- JavaScript string conversion of an element inside an array being
stringified: like the top-level conversion, except that `null` prints as the
empty string. -/
def jsTemplateInner : Json → String
  | Json.null => ""
  | Json.bool b => if b then "true" else "false"
  | Json.num n => toString n
  | Json.str s => s
  | Json.arr l =>
      String.intercalate "," (l.attach.map fun v => jsTemplateInner v.1)
  | Json.obj _ => "[object Object]"
termination_by j => sizeOf j
decreasing_by
  have := List.sizeOf_lt_of_mem v.2
  simp only [Json.arr.sizeOf_spec]
  omega

/-- JavaScript string conversion as performed by template literals such as
`` `Bearer ${this.token}` `` and `` `${this.awb}.pdf` ``:  strings pass
through, `null` prints "null", numbers and booleans print their value, arrays
join their elements with commas, plain objects print "[object Object]". -/
def jsTemplate : Json → String
  | Json.null => "null"
  | Json.bool b => if b then "true" else "false"
  | Json.num n => toString n
  | Json.str s => s
  | Json.arr l => String.intercalate "," (l.map jsTemplateInner)
  | Json.obj _ => "[object Object]"

/-- Mutable session state of the `cargusAPI` instance: the auth token and the
last stored AWB value, both initialised to `null` in the constructor. -/
structure Session where
  token : Json
  awb : Json
deriving Repr

/-- The session state produced by the constructor. -/
def initialSession : Session := { token := Json.null, awb := Json.null }

/-- Outcome of the single remote HTTP call an operation performs:  either a
transport failure (network error / timeout, the promise rejects with no
response), or a response with an HTTP status code and a body. -/
inductive Outcome where
  | transportError : Outcome
  | response : Nat → Json → Outcome
deriving Repr

/-- axios with default `validateStatus` resolves the promise exactly for
statuses in `[200, 300)`. -/
def delivered (status : Nat) : Bool := 200 ≤ status && status < 300

/-- The HTTP request an operation hands to the axios instance.  `auth` is the
`Authorization` header value when present; `contentType` and
`subscriptionKey` record whether the `Content-Type: application/json` and
`Ocp-Apim-Subscription-Key` headers are set. -/
structure Request where
  method : String
  path : String
  auth : Option String
  contentType : Bool
  subscriptionKey : Bool
  query : List (String × Json)
  body : Option Json
deriving Repr

/-- Observable effects of one operation call: the HTTP requests issued, the
console diagnostics emitted, and the files written (name and byte content). -/
structure Effect where
  requests : List Request
  diags : List String
  fileWrites : List (String × List Nat)
deriving Repr

/-- Result of running one operation: the JavaScript return value, the session
state afterwards, and the observable effects. -/
structure CallResult (α : Type) where
  ret : α
  state : Session
  effect : Effect
deriving Repr

/-- `loginUser(userName, password)`:  POSTs the credentials to `/LoginUser`;
on status 200 stores `response.data` as `this.token`, logs the token and
returns `true`; on any other delivered status logs "LoginUser: FALSE" and
returns `false`; on a rejected promise logs the error and returns `false`. -/
def loginUser (st : Session) (userName password : String) (out : Outcome) :
    CallResult Bool :=
  let req : Request :=
    { method := "POST", path := "/LoginUser", auth := Option.none,
      contentType := true, subscriptionKey := true, query := [],
      body := some (Json.obj
        [("UserName", Json.str userName), ("Password", Json.str password)]) }
  match out with
  | Outcome.transportError =>
      { ret := false, state := st,
        effect := { requests := [req], diags := ["Error in loginUser:"],
                    fileWrites := [] } }
  | Outcome.response status data =>
      if delivered status then
        if status = 200 then
          { ret := true, state := { st with token := data },
            effect := { requests := [req],
                        diags := ["LoginUser: Token obtained -"],
                        fileWrites := [] } }
        else
          { ret := false, state := st,
            effect := { requests := [req], diags := ["LoginUser: FALSE"],
                        fileWrites := [] } }
      else
        { ret := false, state := st,
          effect := { requests := [req], diags := ["Error in loginUser:"],
                      fileWrites := [] } }

/-- `getCounties()`:  fails fast when the token is falsy; otherwise GETs
`/Counties` with `countryId=1` and returns `response.data` with no status
check (the delivered status is in the 2xx range by axios's default
`validateStatus`); a rejected promise is logged and the method falls off the
end, returning `undefined`. -/
def getCounties (st : Session) (out : Outcome) : CallResult (Option Json) :=
  if !(truthy st.token) then
    { ret := some Json.null, state := st,
      effect := { requests := [],
                  diags := ["Token not available. Please login first."],
                  fileWrites := [] } }
  else
    let req : Request :=
      { method := "GET", path := "/Counties",
        auth := some ("Bearer " ++ jsTemplate st.token),
        contentType := true, subscriptionKey := true,
        query := [("countryId", Json.num 1)], body := Option.none }
    match out with
    | Outcome.transportError =>
        { ret := Option.none, state := st,
          effect := { requests := [req], diags := ["Error:"],
                      fileWrites := [] } }
    | Outcome.response status data =>
        if delivered status then
          { ret := some data, state := st,
            effect := { requests := [req], diags := [], fileWrites := [] } }
        else
          { ret := Option.none, state := st,
            effect := { requests := [req], diags := ["Error:"],
                        fileWrites := [] } }

/-- `getLocalities(countyId)` (the second definition in the class body, which
shadows the first):  fails fast when the token is falsy; otherwise GETs
`/Localities` with `countryId=1, countyId=<countyId>`; on status 200 logs a
success message and returns the data; any other delivered status falls
through silently (returns `undefined`, no log); a rejected promise is logged
with "Error". -/
def getLocalities (st : Session) (countyId : Json) (out : Outcome) :
    CallResult (Option Json) :=
  if !(truthy st.token) then
    { ret := some Json.null, state := st,
      effect := { requests := [],
                  diags := ["Token not available. Please login first."],
                  fileWrites := [] } }
  else
    let req : Request :=
      { method := "GET", path := "/Localities",
        auth := some ("Bearer " ++ jsTemplate st.token),
        contentType := true, subscriptionKey := true,
        query := [("countryId", Json.num 1), ("countyId", countyId)],
        body := Option.none }
    match out with
    | Outcome.transportError =>
        { ret := Option.none, state := st,
          effect := { requests := [req], diags := ["Error"],
                      fileWrites := [] } }
    | Outcome.response status data =>
        if delivered status then
          if status = 200 then
            { ret := some data, state := st,
              effect := { requests := [req],
                          diags := ["Localities list generated successfully."],
                          fileWrites := [] } }
          else
            { ret := Option.none, state := st,
              effect := { requests := [req], diags := [], fileWrites := [] } }
        else
          { ret := Option.none, state := st,
            effect := { requests := [req], diags := ["Error"],
                        fileWrites := [] } }

/-- `createAWB(awbData)`:  fails fast when the token is falsy; otherwise
POSTs the payload to `/Awbs`; on status 200 stores `response.data` (the whole
body) as `this.awb` and returns it; any other delivered status logs "AWB not
generated." and returns `null`; a rejected promise logs the error message
and, when a response is attached (non-2xx status), also its data, then
returns `null`. -/
def createAWB (st : Session) (awbData : Json) (out : Outcome) :
    CallResult (Option Json) :=
  if !(truthy st.token) then
    { ret := some Json.null, state := st,
      effect := { requests := [],
                  diags := ["Token not available. Please login first."],
                  fileWrites := [] } }
  else
    let req : Request :=
      { method := "POST", path := "/Awbs",
        auth := some ("Bearer " ++ jsTemplate st.token),
        contentType := true, subscriptionKey := true,
        query := [], body := some awbData }
    match out with
    | Outcome.transportError =>
        { ret := some Json.null, state := st,
          effect := { requests := [req], diags := ["Error generating AWB:"],
                      fileWrites := [] } }
    | Outcome.response status data =>
        if delivered status then
          if status = 200 then
            { ret := some data, state := { st with awb := data },
              effect := { requests := [req],
                          diags := ["AWB generated successfully."],
                          fileWrites := [] } }
          else
            { ret := some Json.null, state := st,
              effect := { requests := [req],
                          diags := ["AWB not generated. Response:"],
                          fileWrites := [] } }
        else
          { ret := some Json.null, state := st,
            effect := { requests := [req],
                        diags := ["Error generating AWB:", "Error response:"],
                        fileWrites := [] } }

/-- The character the standard base64 alphabet assigns to a sextet value:
0–25 map to 'A'–'Z', 26–51 to 'a'–'z', 52–61 to '0'–'9', 62 to '+',
63 to '/'. -/
def encSextet (n : Nat) : Char :=
  if n < 26 then Char.ofNat (65 + n)
  else if n < 52 then Char.ofNat (97 + (n - 26))
  else if n < 62 then Char.ofNat (48 + (n - 52))
  else if n = 62 then '+'
  else '/'

/-- The sextet value of a character of the standard base64 alphabet. -/
def decSextet (c : Char) : Nat :=
  if 'A' ≤ c ∧ c ≤ 'Z' then c.toNat - 65
  else if 'a' ≤ c ∧ c ≤ 'z' then c.toNat - 97 + 26
  else if '0' ≤ c ∧ c ≤ '9' then c.toNat - 48 + 52
  else if c = '+' then 62
  else if c = '/' then 63
  else 0

/-- Standard (RFC 4648) base64 encoding of a byte sequence, with '='
padding: three bytes become four sextet characters; a final group of one or
two bytes is padded with "==" or "=". -/
def b64encode : List Nat → List Char
  | [] => []
  | [a] => [encSextet (a / 4), encSextet (a % 4 * 16), '=', '=']
  | [a, b] =>
      [encSextet (a / 4), encSextet (a % 4 * 16 + b / 16),
       encSextet (b % 16 * 4), '=']
  | a :: b :: c :: rest =>
      encSextet (a / 4) :: encSextet (a % 4 * 16 + b / 16) ::
      encSextet (b % 16 * 4 + c / 64) :: encSextet (c % 64) ::
      b64encode rest

/-- Base64 decoding of a padded base64 character sequence, as performed by
`Buffer.from(s, "base64")` on a canonically encoded input: each group of
four characters yields three bytes, except a final group ending in "=" or
"==" which yields two bytes or one. -/
def b64decode : List Char → List Nat
  | c1 :: c2 :: c3 :: c4 :: rest =>
      if rest = [] ∧ c3 = '=' ∧ c4 = '=' then
        [decSextet c1 * 4 + decSextet c2 / 16]
      else if rest = [] ∧ c4 = '=' then
        [decSextet c1 * 4 + decSextet c2 / 16,
         decSextet c2 % 16 * 16 + decSextet c3 / 4]
      else
        (decSextet c1 * 4 + decSextet c2 / 16) ::
        (decSextet c2 % 16 * 16 + decSextet c3 / 4) ::
        (decSextet c3 % 4 * 64 + decSextet c4) ::
        b64decode rest
  | _ => []

/-- Base64 encoding as a string, the shape in which the remote service
returns the label document. -/
def b64encodeString (bytes : List Nat) : String := String.mk (b64encode bytes)

/-- `printAWB()`:  performs no precondition check on `this.token` or
`this.awb`; GETs `/AwbDocuments?barCodes=<awb>&type=PDF&format=0` (the AWB
value interpolated into the path, no `Content-Type` header); on status 200
decodes the body from base64 (`Buffer.from(data, "base64")`), writes the
bytes to `<awb>.pdf`, logs success and returns the file name; a decode or
write failure (modelled: a non-string body, on which `Buffer.from` throws)
is caught by the inner handler and logged; any other delivered status falls
through silently; a rejected promise is logged by the outer handler. -/
def printAWB (st : Session) (out : Outcome) : CallResult (Option Json) :=
  let req : Request :=
    { method := "GET",
      path := "/AwbDocuments?barCodes=" ++ jsTemplate st.awb ++
              "&type=PDF&format=0",
      auth := some ("Bearer " ++ jsTemplate st.token),
      contentType := false, subscriptionKey := true,
      query := [], body := Option.none }
  match out with
  | Outcome.transportError =>
      { ret := Option.none, state := st,
        effect := { requests := [req],
                    diags := ["Error getting the AWB number."],
                    fileWrites := [] } }
  | Outcome.response status data =>
      if delivered status then
        if status = 200 then
          match data with
          | Json.str b64PdfString =>
              let fileName := jsTemplate st.awb ++ ".pdf"
              { ret := some (Json.str fileName), state := st,
                effect := { requests := [req], diags := ["File saved:"],
                            fileWrites :=
                              [(fileName, b64decode b64PdfString.toList)] } }
          | _ =>
              { ret := Option.none, state := st,
                effect := { requests := [req],
                            diags := ["Error generating the PDF file."],
                            fileWrites := [] } }
        else
          { ret := Option.none, state := st,
            effect := { requests := [req], diags := [], fileWrites := [] } }
      else
        { ret := Option.none, state := st,
          effect := { requests := [req],
                      diags := ["Error getting the AWB number."],
                      fileWrites := [] } }

/-- Decoding inverts encoding on every sextet value. -/
theorem decSextet_encSextet : ∀ n < 64, decSextet (encSextet n) = n := by
  decide

/-- No sextet value encodes to the padding character. -/
theorem encSextet_ne_pad : ∀ n < 64, encSextet n ≠ '=' := by
  decide

/-- Base64 decoding inverts base64 encoding on every byte sequence. -/
theorem b64decode_b64encode (bytes : List Nat)
    (h : ∀ x ∈ bytes, x < 256) : b64decode (b64encode bytes) = bytes := by
  induction bytes using b64encode.induct with
  | case1 => rfl
  | case2 a =>
      have ha : a < 256 := h a (by simp)
      rw [b64encode]
      rw [b64decode]
      rw [if_pos ⟨rfl, rfl, rfl⟩]
      have e1 := decSextet_encSextet (a / 4) (by omega)
      have e2 := decSextet_encSextet (a % 4 * 16) (by omega)
      rw [e1, e2]
      simp only [List.cons.injEq, and_true]
      omega
  | case3 a b =>
      have ha : a < 256 := h a (by simp)
      have hb : b < 256 := h b (by simp)
      rw [b64encode]
      rw [b64decode]
      rw [if_neg (by
        rintro ⟨-, h3, -⟩
        exact encSextet_ne_pad (b % 16 * 4) (by omega) h3)]
      rw [if_pos ⟨rfl, rfl⟩]
      have e1 := decSextet_encSextet (a / 4) (by omega)
      have e2 := decSextet_encSextet (a % 4 * 16 + b / 16) (by omega)
      have e3 := decSextet_encSextet (b % 16 * 4) (by omega)
      rw [e1, e2, e3]
      simp only [List.cons.injEq, and_true]
      exact ⟨by omega, by omega⟩
  | case4 a b c rest ih =>
      have ha : a < 256 := h a (by simp)
      have hb : b < 256 := h b (by simp)
      have hc : c < 256 := h c (by simp)
      have hrest : ∀ x ∈ rest, x < 256 := by
        intro x hx
        exact h x (by simp [hx])
      rw [b64encode]
      rw [b64decode]
      rw [if_neg (by
        rintro ⟨-, h3, -⟩
        exact encSextet_ne_pad (b % 16 * 4 + c / 64) (by omega) h3)]
      rw [if_neg (by
        rintro ⟨-, h4⟩
        exact encSextet_ne_pad (c % 64) (by omega) h4)]
      have e1 := decSextet_encSextet (a / 4) (by omega)
      have e2 := decSextet_encSextet (a % 4 * 16 + b / 16) (by omega)
      have e3 := decSextet_encSextet (b % 16 * 4 + c / 64) (by omega)
      have e4 := decSextet_encSextet (c % 64) (by omega)
      rw [e1, e2, e3, e4, ih hrest]
      simp only [List.cons.injEq, and_true]
      exact ⟨by omega, by omega, by omega⟩

/-- A JavaScript no-result return: `undefined` (modelled `none`) or `null`
(modelled `some Json.null`). -/
def noResult (r : Option Json) : Prop := r = Option.none ∨ r = some Json.null

/-- A remote outcome on which an operation cannot take its status-200 success
path: a transport failure or a response whose status is not 200. -/
def failureOutcome : Outcome → Bool
  | Outcome.transportError => true
  | Outcome.response s _ => s != 200

/-- A response that axios delivers (2xx status) but whose status is not
200. -/
def oddSuccess : Outcome → Bool
  | Outcome.transportError => false
  | Outcome.response s _ => delivered s && s != 200

/-- The body attached to a remote outcome, when there is one. -/
def dataOf : Outcome → Option Json
  | Outcome.transportError => Option.none
  | Outcome.response _ d => some d

/-- C5: for every remote login response with status 200 (OK) carrying a body
`t`, `loginUser` stores `t` verbatim as the session token, overwriting any
previously held token, and returns `true`. -/
theorem loginUser_ok_stores_token (st : Session) (u p : String) (t : Json) :
    (loginUser st u p (Outcome.response 200 t)).ret = true ∧
    (loginUser st u p (Outcome.response 200 t)).state.token = t := by
  constructor <;> rfl

/-- C1, counterexample: with a token held, a status-200 response whose body
is the object `{id:"AWB1"}` leaves the stored session waybill value equal to
the whole object, not to the identifier string "AWB1" found in the body. -/
theorem createAWB_stores_object_not_id :
    (createAWB { token := Json.str "tok", awb := Json.null } (Json.obj [])
        (Outcome.response 200
          (Json.obj [("id", Json.str "AWB1")]))).state.awb
      = Json.obj [("id", Json.str "AWB1")] ∧
    Json.obj [("id", Json.str "AWB1")] ≠ Json.str "AWB1" :=
  ⟨rfl, fun h => Json.noConfusion h⟩

/-- C1, amended: for every session holding a token, a successful
`createAWB` call (status 200) stores the entire response body as the session
waybill value and returns the full response payload. -/
theorem createAWB_ok_stores_body (st : Session) (awbData data : Json)
    (h : truthy st.token = true) :
    (createAWB st awbData (Outcome.response 200 data)).ret = some data ∧
    (createAWB st awbData (Outcome.response 200 data)).state.awb = data := by
  simp only [createAWB, h, Bool.not_true, Bool.false_eq_true, if_false]
  constructor <;> rfl

/-- Witness for the amended C1 at a concrete input. -/
theorem createAWB_ok_stores_body_witness :
    (createAWB { token := Json.str "t", awb := Json.null } Json.null
        (Outcome.response 200 (Json.str "AWB1"))).ret
      = some (Json.str "AWB1") ∧
    (createAWB { token := Json.str "t", awb := Json.null } Json.null
        (Outcome.response 200 (Json.str "AWB1"))).state.awb
      = Json.str "AWB1" :=
  createAWB_ok_stores_body _ _ _ (by decide)

/-- C2: whenever the session token is still absent (`null`), `getCounties`,
`getLocalities` and `createAWB` return no-result (`null`) and issue zero
network requests, whatever the remote would have answered. -/
theorem unauthenticated_no_request (st : Session) (cId awbData : Json)
    (out : Outcome) (h : st.token = Json.null) :
    (getCounties st out).ret = some Json.null ∧
    (getCounties st out).effect.requests = [] ∧
    (getLocalities st cId out).ret = some Json.null ∧
    (getLocalities st cId out).effect.requests = [] ∧
    (createAWB st awbData out).ret = some Json.null ∧
    (createAWB st awbData out).effect.requests = [] := by
  simp only [getCounties, getLocalities, createAWB, h, truthy,
    Bool.not_false, if_true]
  exact ⟨trivial, trivial, trivial, trivial, trivial, trivial⟩

/-- Witness for C2 at a concrete input: the freshly constructed session. -/
theorem unauthenticated_no_request_witness :
    (getCounties initialSession Outcome.transportError).ret
      = some Json.null ∧
    (getCounties initialSession Outcome.transportError).effect.requests
      = [] ∧
    (getLocalities initialSession (Json.num 5)
        Outcome.transportError).ret = some Json.null ∧
    (getLocalities initialSession (Json.num 5)
        Outcome.transportError).effect.requests = [] ∧
    (createAWB initialSession Json.null Outcome.transportError).ret
      = some Json.null ∧
    (createAWB initialSession Json.null
        Outcome.transportError).effect.requests = [] :=
  unauthenticated_no_request initialSession (Json.num 5) Json.null
    Outcome.transportError rfl

/-- C4: for every prior session state, a failed call leaves the session
untouched: a `loginUser` call that fails (transport error, or any response
status other than 200) leaves the whole state — in particular the token —
exactly as before, and a `createAWB` call that fails likewise leaves the
whole state — in particular the stored waybill value — exactly as before. -/
theorem failed_call_preserves_state (st : Session) (u p : String)
    (awbData : Json) (s : Nat) (dat : Json) (h : s ≠ 200) :
    (loginUser st u p Outcome.transportError).state = st ∧
    (loginUser st u p (Outcome.response s dat)).state = st ∧
    (createAWB st awbData Outcome.transportError).state = st ∧
    (createAWB st awbData (Outcome.response s dat)).state = st := by
  refine ⟨rfl, ?_, ?_, ?_⟩
  · simp only [loginUser]
    split_ifs <;> rfl
  · simp only [createAWB]
    split_ifs <;> rfl
  · simp only [createAWB]
    split_ifs <;> rfl

/-- Witness for C4 at a concrete input: an HTTP 500 response. -/
theorem failed_call_preserves_state_witness :
    (loginUser { token := Json.str "t", awb := Json.str "A" } "u" "p"
        Outcome.transportError).state
      = { token := Json.str "t", awb := Json.str "A" } ∧
    (loginUser { token := Json.str "t", awb := Json.str "A" } "u" "p"
        (Outcome.response 500 Json.null)).state
      = { token := Json.str "t", awb := Json.str "A" } ∧
    (createAWB { token := Json.str "t", awb := Json.str "A" } Json.null
        Outcome.transportError).state
      = { token := Json.str "t", awb := Json.str "A" } ∧
    (createAWB { token := Json.str "t", awb := Json.str "A" } Json.null
        (Outcome.response 500 Json.null)).state
      = { token := Json.str "t", awb := Json.str "A" } :=
  failed_call_preserves_state _ "u" "p" Json.null 500 Json.null
    (by decide)

/-- C6: the code contradicts its own documentation here.  `getCounties`
returns `response.data` with no status check, so a delivered non-OK status
(e.g. 204, inside axios's 2xx acceptance range but not 200) makes it return
the body with no diagnostic, where both the specification and the
function's own JSDoc ("Returns counties data if response is 200, null
otherwise") require a diagnostic and no data. -/
theorem getCounties_returns_data_on_non_ok_status :
    (getCounties { token := Json.str "tok", awb := Json.null }
        (Outcome.response 204 (Json.arr [Json.str "Alba"]))).ret
      = some (Json.arr [Json.str "Alba"]) ∧
    (getCounties { token := Json.str "tok", awb := Json.null }
        (Outcome.response 204 (Json.arr [Json.str "Alba"]))).effect.diags
      = [] :=
  ⟨rfl, rfl⟩

/-- C7: `printAWB` checks no precondition: for every session state —
including states with no token or no stored waybill value — and every remote
outcome, it issues exactly one request, the document GET whose path
interpolates the raw waybill field (printing "null" when absent) and whose
authorization header interpolates the raw token field. -/
theorem printAWB_no_precondition (st : Session) (out : Outcome) :
    (printAWB st out).effect.requests =
      [{ method := "GET",
         path := "/AwbDocuments?barCodes=" ++ jsTemplate st.awb ++
                 "&type=PDF&format=0",
         auth := some ("Bearer " ++ jsTemplate st.token),
         contentType := false, subscriptionKey := true,
         query := [], body := Option.none }] := by
  cases out with
  | transportError => rfl
  | response s d =>
      simp only [printAWB]
      split_ifs <;> cases d <;> rfl

/-- C9: for every session holding a token and every county identifier, the
request `getLocalities` issues is a GET to `/Localities` carrying the Bearer
token and exactly the query parameters `countryId=1` and `countyId=<id>`;
and a status-200 response makes it return the response body. -/
theorem getLocalities_request_shape (st : Session) (countyId : Json)
    (out : Outcome) (h : truthy st.token = true) :
    (getLocalities st countyId out).effect.requests =
      [{ method := "GET", path := "/Localities",
         auth := some ("Bearer " ++ jsTemplate st.token),
         contentType := true, subscriptionKey := true,
         query := [("countryId", Json.num 1), ("countyId", countyId)],
         body := Option.none }] ∧
    (∀ d : Json,
      (getLocalities st countyId (Outcome.response 200 d)).ret = some d) := by
  constructor
  · cases out with
    | transportError =>
        simp only [getLocalities, h, Bool.not_true, Bool.false_eq_true,
          if_false]
    | response s d =>
        simp only [getLocalities, h, Bool.not_true, Bool.false_eq_true,
          if_false]
        split_ifs <;> rfl
  · intro d
    simp only [getLocalities, h, Bool.not_true, Bool.false_eq_true, if_false]
    rfl

/-- Witness for C9 at a concrete input. -/
theorem getLocalities_request_shape_witness :
    (getLocalities { token := Json.str "tok", awb := Json.null }
        (Json.num 5) (Outcome.response 200 (Json.arr []))).effect.requests =
      [{ method := "GET", path := "/Localities",
         auth := some ("Bearer " ++
           jsTemplate (Json.str "tok" : Json)),
         contentType := true, subscriptionKey := true,
         query := [("countryId", Json.num 1), ("countyId", Json.num 5)],
         body := Option.none }] ∧
    (∀ d : Json,
      (getLocalities { token := Json.str "tok", awb := Json.null }
          (Json.num 5) (Outcome.response 200 d)).ret = some d) :=
  getLocalities_request_shape
    { token := Json.str "tok", awb := Json.null } (Json.num 5)
    (Outcome.response 200 (Json.arr [])) (by decide)

/-- C10, frame invariant: `getCounties`, `getLocalities` and `printAWB`
leave the whole session state unchanged on every input and outcome;
`loginUser` never changes the stored waybill value; `createAWB` never
changes the token. -/
theorem session_frame_invariant (st : Session) (u p : String)
    (cId awbData : Json) (out : Outcome) :
    (getCounties st out).state = st ∧
    (getLocalities st cId out).state = st ∧
    (printAWB st out).state = st ∧
    (loginUser st u p out).state.awb = st.awb ∧
    (createAWB st awbData out).state.token = st.token := by
  refine ⟨?_, ?_, ?_, ?_, ?_⟩
  · cases out with
    | transportError => simp only [getCounties]; split_ifs <;> rfl
    | response s d => simp only [getCounties]; split_ifs <;> rfl
  · cases out with
    | transportError => simp only [getLocalities]; split_ifs <;> rfl
    | response s d => simp only [getLocalities]; split_ifs <;> rfl
  · cases out with
    | transportError => rfl
    | response s d => simp only [printAWB]; split_ifs <;> cases d <;> rfl
  · cases out with
    | transportError => rfl
    | response s d => simp only [loginUser]; split_ifs <;> rfl
  · cases out with
    | transportError => simp only [createAWB]; split_ifs <;> rfl
    | response s d => simp only [createAWB]; split_ifs <;> rfl

/-- C3: for every session holding a token and a previously stored waybill
identifier string `w`, and every byte sequence `b`, feeding `printAWB` a
status-200 response whose body is the base64 encoding of `b` makes it write
exactly one file, named `w ++ ".pdf"`, whose byte content is exactly `b`,
and return that file name. -/
theorem printAWB_writes_decoded_bytes (st : Session) (w : String)
    (bytes : List Nat) (ht : truthy st.token = true)
    (hw : st.awb = Json.str w) (hb : ∀ x ∈ bytes, x < 256) :
    (printAWB st
        (Outcome.response 200 (Json.str (b64encodeString bytes)))).ret
      = some (Json.str (w ++ ".pdf")) ∧
    (printAWB st
        (Outcome.response 200
          (Json.str (b64encodeString bytes)))).effect.fileWrites
      = [(w ++ ".pdf", bytes)] := by
  simp only [printAWB, hw, jsTemplate, b64encodeString]
  constructor
  · rfl
  · show [(w ++ ".pdf", b64decode (String.mk (b64encode bytes)).toList)]
        = [(w ++ ".pdf", bytes)]
    rw [show (String.mk (b64encode bytes)).toList = b64encode bytes from rfl]
    rw [b64decode_b64encode bytes hb]

/-- Witness for C3 at a concrete input: the bytes of "%PDF". -/
theorem printAWB_writes_decoded_bytes_witness :
    (printAWB { token := Json.str "t", awb := Json.str "AWB1" }
        (Outcome.response 200
          (Json.str (b64encodeString [37, 80, 68, 70])))).ret
      = some (Json.str ("AWB1" ++ ".pdf")) ∧
    (printAWB { token := Json.str "t", awb := Json.str "AWB1" }
        (Outcome.response 200
          (Json.str (b64encodeString [37, 80, 68, 70])))).effect.fileWrites
      = [("AWB1" ++ ".pdf", [37, 80, 68, 70])] :=
  printAWB_writes_decoded_bytes _ "AWB1" [37, 80, 68, 70] (by decide) rfl
    (by decide)

/-- C8, counterexample: with a token held, a delivered response with the
non-OK status 204 is a failure outcome for `getLocalities` (no data results),
yet the call emits no diagnostic at all — the silent fall-through of the
status check — contradicting the claim that every failure emits one. -/
theorem getLocalities_silent_on_204 :
    (getLocalities { token := Json.str "tok", awb := Json.null } (Json.num 5)
        (Outcome.response 204 Json.null)).ret = Option.none ∧
    (getLocalities { token := Json.str "tok", awb := Json.null } (Json.num 5)
        (Outcome.response 204 Json.null)).effect.diags = [] :=
  ⟨rfl, rfl⟩

/-- C8, amended: every failure outcome (missing authentication, transport
failure, response status other than 200, decode failure) is caught and
yields absence-of-result, with a diagnostic — except that a response
delivered with a 2xx status other than 200 is not uniformly diagnosed:
`getCounties` then returns the body with no diagnostic, and `getLocalities`
and `printAWB` return absence-of-result silently; `loginUser` and
`createAWB` diagnose every failure.  No exception propagates (every
operation is total in this model). -/
theorem failures_caught_logged_no_result (st : Session) (u p : String)
    (cId awbData : Json) (out : Outcome)
    (h : failureOutcome out = true) :
    ((loginUser st u p out).ret = false ∧
      (loginUser st u p out).effect.diags ≠ []) ∧
    ((noResult (getCounties st out).ret ∧
        (getCounties st out).effect.diags ≠ []) ∨
      (oddSuccess out = true ∧ truthy st.token = true ∧
        (getCounties st out).ret = dataOf out ∧
        (getCounties st out).effect.diags = [])) ∧
    (noResult (getLocalities st cId out).ret ∧
      ((getLocalities st cId out).effect.diags ≠ [] ∨
        (oddSuccess out = true ∧ truthy st.token = true))) ∧
    (noResult (createAWB st awbData out).ret ∧
      (createAWB st awbData out).effect.diags ≠ []) ∧
    (noResult (printAWB st out).ret ∧
      ((printAWB st out).effect.diags ≠ [] ∨ oddSuccess out = true)) ∧
    (noResult (printAWB st (Outcome.response 200 Json.null)).ret ∧
      (printAWB st (Outcome.response 200 Json.null)).effect.diags ≠ []) := by
  have hlast : noResult (printAWB st (Outcome.response 200 Json.null)).ret ∧
      (printAWB st (Outcome.response 200 Json.null)).effect.diags ≠ [] :=
    ⟨Or.inl rfl, by simp [printAWB, delivered]⟩
  cases out with
  | transportError =>
      refine ⟨⟨rfl, by simp [loginUser]⟩, ?_, ?_, ?_, ?_, hlast⟩
      · by_cases ht : truthy st.token
        · exact Or.inl ⟨Or.inl (by simp [getCounties, ht]),
            by simp [getCounties, ht]⟩
        · exact Or.inl ⟨Or.inr (by simp [getCounties, ht]),
            by simp [getCounties, ht]⟩
      · by_cases ht : truthy st.token
        · exact ⟨Or.inl (by simp [getLocalities, ht]),
            Or.inl (by simp [getLocalities, ht])⟩
        · exact ⟨Or.inr (by simp [getLocalities, ht]),
            Or.inl (by simp [getLocalities, ht])⟩
      · by_cases ht : truthy st.token
        · exact ⟨Or.inr (by simp [createAWB, ht]), by simp [createAWB, ht]⟩
        · exact ⟨Or.inr (by simp [createAWB, ht]), by simp [createAWB, ht]⟩
      · exact ⟨Or.inl (by simp [printAWB]), Or.inl (by simp [printAWB])⟩
  | response s d =>
      have hs : s ≠ 200 := by simpa [failureOutcome] using h
      by_cases hd : delivered s = true
      · have ho : oddSuccess (Outcome.response s d) = true := by
          simp [oddSuccess, hd, hs]
        refine ⟨⟨by simp [loginUser, hd, hs], by simp [loginUser, hd, hs]⟩,
          ?_, ?_, ?_, ?_, hlast⟩
        · by_cases ht : truthy st.token
          · exact Or.inr ⟨ho, ht, by simp [getCounties, ht, hd, dataOf],
              by simp [getCounties, ht, hd]⟩
          · exact Or.inl ⟨Or.inr (by simp [getCounties, ht]),
              by simp [getCounties, ht]⟩
        · by_cases ht : truthy st.token
          · exact ⟨Or.inl (by simp [getLocalities, ht, hd, hs]),
              Or.inr ⟨ho, ht⟩⟩
          · exact ⟨Or.inr (by simp [getLocalities, ht]),
              Or.inl (by simp [getLocalities, ht])⟩
        · by_cases ht : truthy st.token
          · exact ⟨Or.inr (by simp [createAWB, ht, hd, hs]),
              by simp [createAWB, ht, hd, hs]⟩
          · exact ⟨Or.inr (by simp [createAWB, ht]), by simp [createAWB, ht]⟩
        · exact ⟨Or.inl (by simp [printAWB, hd, hs]), Or.inr ho⟩
      · refine ⟨⟨by simp [loginUser, hd], by simp [loginUser, hd]⟩,
          ?_, ?_, ?_, ?_, hlast⟩
        · by_cases ht : truthy st.token
          · exact Or.inl ⟨Or.inl (by simp [getCounties, ht, hd]),
              by simp [getCounties, ht, hd]⟩
          · exact Or.inl ⟨Or.inr (by simp [getCounties, ht]),
              by simp [getCounties, ht]⟩
        · by_cases ht : truthy st.token
          · exact ⟨Or.inl (by simp [getLocalities, ht, hd]),
              Or.inl (by simp [getLocalities, ht, hd])⟩
          · exact ⟨Or.inr (by simp [getLocalities, ht]),
              Or.inl (by simp [getLocalities, ht])⟩
        · by_cases ht : truthy st.token
          · exact ⟨Or.inr (by simp [createAWB, ht, hd]),
              by simp [createAWB, ht, hd]⟩
          · exact ⟨Or.inr (by simp [createAWB, ht]), by simp [createAWB, ht]⟩
        · exact ⟨Or.inl (by simp [printAWB, hd]),
            Or.inl (by simp [printAWB, hd])⟩

/-- Witness for the amended C8 at a concrete input: an HTTP 500 response
against an authenticated session. -/
theorem failures_caught_logged_no_result_witness :
    ((loginUser { token := Json.str "tok", awb := Json.null } "u" "p"
        (Outcome.response 500 (Json.str "err"))).ret = false ∧
      (loginUser { token := Json.str "tok", awb := Json.null } "u" "p"
        (Outcome.response 500 (Json.str "err"))).effect.diags ≠ []) ∧
    ((noResult (getCounties { token := Json.str "tok", awb := Json.null }
          (Outcome.response 500 (Json.str "err"))).ret ∧
        (getCounties { token := Json.str "tok", awb := Json.null }
          (Outcome.response 500 (Json.str "err"))).effect.diags ≠ []) ∨
      (oddSuccess (Outcome.response 500 (Json.str "err")) = true ∧
        truthy (Json.str "tok") = true ∧
        (getCounties { token := Json.str "tok", awb := Json.null }
          (Outcome.response 500 (Json.str "err"))).ret
          = dataOf (Outcome.response 500 (Json.str "err")) ∧
        (getCounties { token := Json.str "tok", awb := Json.null }
          (Outcome.response 500 (Json.str "err"))).effect.diags = [])) ∧
    (noResult (getLocalities { token := Json.str "tok", awb := Json.null }
        (Json.num 5) (Outcome.response 500 (Json.str "err"))).ret ∧
      ((getLocalities { token := Json.str "tok", awb := Json.null }
          (Json.num 5)
          (Outcome.response 500 (Json.str "err"))).effect.diags ≠ [] ∨
        (oddSuccess (Outcome.response 500 (Json.str "err")) = true ∧
          truthy (Json.str "tok") = true))) ∧
    (noResult (createAWB { token := Json.str "tok", awb := Json.null }
        Json.null (Outcome.response 500 (Json.str "err"))).ret ∧
      (createAWB { token := Json.str "tok", awb := Json.null } Json.null
        (Outcome.response 500 (Json.str "err"))).effect.diags ≠ []) ∧
    (noResult (printAWB { token := Json.str "tok", awb := Json.null }
        (Outcome.response 500 (Json.str "err"))).ret ∧
      ((printAWB { token := Json.str "tok", awb := Json.null }
          (Outcome.response 500 (Json.str "err"))).effect.diags ≠ [] ∨
        oddSuccess (Outcome.response 500 (Json.str "err")) = true)) ∧
    (noResult (printAWB { token := Json.str "tok", awb := Json.null }
        (Outcome.response 200 Json.null)).ret ∧
      (printAWB { token := Json.str "tok", awb := Json.null }
        (Outcome.response 200 Json.null)).effect.diags ≠ []) :=
  failures_caught_logged_no_result
    { token := Json.str "tok", awb := Json.null } "u" "p" (Json.num 5)
    Json.null (Outcome.response 500 (Json.str "err")) (by decide)
